import Mathlib

/-
Shallow embedding of the Snake game in src/01-overview/snake-chatgpt/src/App.jsx.
The file contains two variants of the game:
  * Variant A (`SnakeGame`, first half of the file): 20x20 board, initial snake of
    length 3, lethal walls only, speed ramp on eating, score reward 1.
  * Variant B (`SnakeGame`, second half): 20x20 grid, initial snake of length 1,
    toggleable wall mode (wall death vs. pass-through wrap), fixed speed,
    score reward 10.
Randomness (Math.random draws inside the food-placement rejection loops) is made
explicit: each tick receives a list of candidate cells standing for the successive
random draws, and food placement returns `none` when the supply is exhausted.
-/

/-- Integer grid coordinate pair, as produced by the JS object literals. -/
structure Cell where
  x : Int
  y : Int
deriving DecidableEq, Repr

/-- Membership of a cell in a list of cells, as in the JS
`some(p => p.x === c.x && p.y === c.y)` / `Set.has` tests. -/
def cellMem (c : Cell) (l : List Cell) : Bool :=
  l.any (fun p => p.x == c.x && p.y == c.y)

/-- Rejection sampling for food placement (`randomFood` in variant A,
`generateFood` in variant B): take successive random draws until one misses the
excluded cells; `none` when the modelled draw supply runs out. -/
def randomFood (excludeCells : List Cell) : List Cell → Option Cell
  | [] => none
  | d :: rest =>
      if cellMem d excludeCells then randomFood excludeCells rest else some d

/-- The candidate head before any wall handling, as built in both variants:
`newHead = { x: head.x + dir.x, y: head.y + dir.y }`. -/
def rawHead (hd dir : Cell) : Cell := ⟨hd.x + dir.x, hd.y + dir.y⟩

/-! ## Variant A (first `SnakeGame` component) -/

/-- BOARD_SIZE = 20. -/
def BOARD_SIZE : Int := 20

/-- START_SNAKE = [{x:9,y:10},{x:8,y:10},{x:7,y:10}]. -/
def START_SNAKE : List Cell := [⟨9, 10⟩, ⟨8, 10⟩, ⟨7, 10⟩]

/-- START_DIRECTION = {x:1,y:0}. -/
def START_DIRECTION : Cell := ⟨1, 0⟩

/-- INITIAL_SPEED = 150 ms per tick. -/
def INITIAL_SPEED : Int := 150

/-- Variant A component state: the `useState` cells of the first `SnakeGame`. -/
structure StateA where
  snake : List Cell
  direction : Cell
  food : Cell
  running : Bool
  speed : Int
  score : Nat
  gameOver : Bool
deriving DecidableEq, Repr

/-- Key-to-direction map of variant A's `handleKey` (arrow keys and WASD). -/
def keyDirA (k : String) : Option Cell :=
  if k = "ArrowUp" then some ⟨0, -1⟩
  else if k = "ArrowDown" then some ⟨0, 1⟩
  else if k = "ArrowLeft" then some ⟨-1, 0⟩
  else if k = "ArrowRight" then some ⟨1, 0⟩
  else if k = "w" then some ⟨0, -1⟩
  else if k = "s" then some ⟨0, 1⟩
  else if k = "a" then some ⟨-1, 0⟩
  else if k = "d" then some ⟨1, 0⟩
  else none

/-- Variant A `handleKey`: unmapped keys are ignored; a mapped direction whose
componentwise sum with the current direction is zero (exact reversal) is
ignored; otherwise the direction is updated. -/
def handleKeyA (k : String) (s : StateA) : StateA :=
  match keyDirA k with
  | none => s
  | some newDir =>
      if s.direction.x + newDir.x = 0 ∧ s.direction.y + newDir.y = 0 then s
      else { s with direction := newDir }

/-- Variant A game tick: the `setInterval` callback. The interval only exists
while `running && !gameOver` (the effect returns early otherwise), so a tick in
any other state leaves the state unchanged. Order: wall check, self-collision
check, movement with growth/score/speed/food updates on eating. -/
def tickA (s : StateA) (draws : List Cell) : Option StateA :=
  if s.running = false ∨ s.gameOver = true then some s
  else
    match s.snake with
    | [] => none
    | hd :: _ =>
        let newHead : Cell := rawHead hd s.direction
        if newHead.x < 0 ∨ newHead.x ≥ BOARD_SIZE ∨ newHead.y < 0 ∨ newHead.y ≥ BOARD_SIZE then
          some { s with gameOver := true, running := false }
        else if cellMem newHead s.snake then
          some { s with gameOver := true, running := false }
        else if newHead.x == s.food.x && newHead.y == s.food.y then
          match randomFood (newHead :: s.snake) draws with
          | none => none
          | some f =>
              some { s with snake := newHead :: s.snake,
                            score := s.score + 1,
                            speed := max 40 (s.speed - 4),
                            food := f }
        else
          some { s with snake := (newHead :: s.snake).dropLast }

/-- Variant A `start` (also `restart`): reinitialise every state cell; the food
is drawn by `randomFood(START_SNAKE)`. -/
def startA (draws : List Cell) : Option StateA :=
  (randomFood START_SNAKE draws).map (fun f =>
    { snake := START_SNAKE, direction := START_DIRECTION, food := f,
      running := true, speed := INITIAL_SPEED, score := 0, gameOver := false })

/-- Variant A Reset button onClick: like `start` but leaves the game stopped. -/
def resetBtnA (draws : List Cell) : Option StateA :=
  (randomFood START_SNAKE draws).map (fun f =>
    { snake := START_SNAKE, direction := START_DIRECTION, food := f,
      running := false, speed := INITIAL_SPEED, score := 0, gameOver := false })

/-- Variant A `pause`. -/
def pauseA (s : StateA) : StateA := { s with running := false }

/-- Variant A `resume`: only resumes when the game is not over. -/
def resumeA (s : StateA) : StateA :=
  if s.gameOver = true then s else { s with running := true }

/-- Variant A Faster button: speed decreases by 20, floor-clamped at 40. -/
def fasterA (s : StateA) : StateA := { s with speed := max 40 (s.speed - 20) }

/-- Variant A Slower button: speed increases by 20, ceiling-clamped at 1000. -/
def slowerA (s : StateA) : StateA := { s with speed := min 1000 (s.speed + 20) }

/-- The initial variant A component state, given the food cell drawn by the
`useState` initialiser `randomFood(START_SNAKE)`. -/
def initialA (f : Cell) : StateA :=
  { snake := START_SNAKE, direction := START_DIRECTION, food := f,
    running := false, speed := INITIAL_SPEED, score := 0, gameOver := false }

/-- The external events variant A reacts to: timer ticks, key presses and the
UI controls. Ticks and (re)starts carry the random draws their food placement
may consume. -/
inductive EventA where
  | tick (draws : List Cell)
  | key (k : String)
  | start (draws : List Cell)
  | reset (draws : List Cell)
  | pause
  | resume
  | faster
  | slower
deriving Repr

/-- One step of the variant A system under an external event. -/
def stepA (s : StateA) : EventA → Option StateA
  | EventA.tick draws => tickA s draws
  | EventA.key k => some (handleKeyA k s)
  | EventA.start draws => startA draws
  | EventA.reset draws => resetBtnA draws
  | EventA.pause => some (pauseA s)
  | EventA.resume => some (resumeA s)
  | EventA.faster => some (fasterA s)
  | EventA.slower => some (slowerA s)

/-- Run variant A through a list of events. -/
def runA (s : StateA) : List EventA → Option StateA
  | [] => some s
  | e :: es =>
      match stepA s e with
      | none => none
      | some s' => runA s' es

/-- Run variant A through a list of consecutive ticks. -/
def ticksA (s : StateA) : List (List Cell) → Option StateA
  | [] => some s
  | ds :: rest =>
      match tickA s ds with
      | none => none
      | some s' => ticksA s' rest

/-- The states of the variant A component reachable from its initialisation
under any interleaving of external events. -/
inductive ReachA : StateA → Prop
  | init (draws : List Cell) (f : Cell) :
      randomFood START_SNAKE draws = some f → ReachA (initialA f)
  | step (s : StateA) (e : EventA) (s' : StateA) :
      ReachA s → stepA s e = some s' → ReachA s'

/-! ## Variant B (second `SnakeGame` component) -/

/-- GRID_SIZE = 20. -/
def GRID_SIZE : Int := 20

/-- INITIAL_SNAKE = [{x:10,y:10}]. -/
def INITIAL_SNAKE : List Cell := [⟨10, 10⟩]

/-- INITIAL_DIRECTION = {x:1,y:0}. -/
def INITIAL_DIRECTION : Cell := ⟨1, 0⟩

/-- The wallMode state: 'wall' (lethal) or 'passthrough' (wrap-around). -/
inductive WallMode where
  | wall
  | passthrough
deriving DecidableEq, Repr

/-- Variant B component state: the `useState` cells of the second `SnakeGame`. -/
structure StateB where
  snake : List Cell
  direction : Cell
  food : Cell
  gameOver : Bool
  score : Nat
  isPaused : Bool
  gameStarted : Bool
  wallMode : WallMode
deriving DecidableEq, Repr

/-- The pass-through wrap of one coordinate, exactly the two sequential `if`
statements of `moveSnake`: a negative coordinate becomes GRID_SIZE - 1, then a
coordinate ≥ GRID_SIZE becomes 0. -/
def wrapCoord (c : Int) : Int :=
  let c1 := if c < 0 then GRID_SIZE - 1 else c
  if c1 ≥ GRID_SIZE then 0 else c1

/-- The candidate head actually tested against the snake body in `moveSnake`:
the raw head in wall mode, the wrapped head in pass-through mode. -/
def candHeadB (s : StateB) (hd : Cell) : Cell :=
  if s.wallMode = WallMode.wall then rawHead hd s.direction
  else ⟨wrapCoord (rawHead hd s.direction).x, wrapCoord (rawHead hd s.direction).y⟩

/-- Variant B `moveSnake`: returns early (state unchanged) unless the game is
started, unpaused and not over. Wall mode kills at the boundary; pass-through
mode wraps. Self-collision is tested against the whole current snake. On
eating, `generateFood()` is called: its `useCallback` closure captures the
`snake` state of the last render, i.e. the snake *before* this move, so the
rejection sampling excludes only the old snake cells. -/
def moveSnakeB (s : StateB) (draws : List Cell) : Option StateB :=
  if s.gameOver = true ∨ s.isPaused = true ∨ s.gameStarted = false then some s
  else
    match s.snake with
    | [] => none
    | hd :: _ =>
        let raw : Cell := rawHead hd s.direction
        if s.wallMode = WallMode.wall ∧
            (raw.x < 0 ∨ raw.x ≥ GRID_SIZE ∨ raw.y < 0 ∨ raw.y ≥ GRID_SIZE) then
          some { s with gameOver := true }
        else
          let newHead := candHeadB s hd
          if cellMem newHead s.snake then
            some { s with gameOver := true }
          else if newHead.x == s.food.x && newHead.y == s.food.y then
            match randomFood s.snake draws with
            | none => none
            | some f =>
                some { s with snake := newHead :: s.snake,
                              score := s.score + 10,
                              food := f }
          else
            some { s with snake := (newHead :: s.snake).dropLast }

/-- Run variant B through a list of consecutive ticks. -/
def ticksB (s : StateB) : List (List Cell) → Option StateB
  | [] => some s
  | ds :: rest =>
      match moveSnakeB s ds with
      | none => none
      | some s' => ticksB s' rest

/-- Key-to-direction map implicit in variant B's `handleKeyPress` switch
(arrow keys only). -/
def keyDirB (k : String) : Option Cell :=
  if k = "ArrowUp" then some ⟨0, -1⟩
  else if k = "ArrowDown" then some ⟨0, 1⟩
  else if k = "ArrowLeft" then some ⟨-1, 0⟩
  else if k = "ArrowRight" then some ⟨1, 0⟩
  else none

/-- The `setDirection` updater of variant B's `handleKeyPress`: each arrow key
is accepted unless the current direction is its exact opposite. -/
def setDirB (k : String) (prev : Cell) : Cell :=
  if k = "ArrowUp" then (if prev.y ≠ 1 then ⟨0, -1⟩ else prev)
  else if k = "ArrowDown" then (if prev.y ≠ -1 then ⟨0, 1⟩ else prev)
  else if k = "ArrowLeft" then (if prev.x ≠ 1 then ⟨-1, 0⟩ else prev)
  else if k = "ArrowRight" then (if prev.x ≠ -1 then ⟨1, 0⟩ else prev)
  else prev

/-- The `e.key.startsWith('Arrow')` test of variant B, taken on the character
list of the key so that it stays kernel-computable. -/
def startsWithArrow (k : String) : Bool := "Arrow".data.isPrefixOf k.data

/-- Variant B `handleKeyPress`: an arrow key while not started starts the game;
space toggles pause (and returns before the direction switch); any other key
goes through the `setDirection` updater. -/
def handleKeyB (k : String) (s : StateB) : StateB :=
  let s1 := if s.gameStarted = false ∧ startsWithArrow k then
              { s with gameStarted := true }
            else s
  if k = " " then { s1 with isPaused := !s1.isPaused }
  else { s1 with direction := setDirB k s1.direction }

/-- Variant B `resetGame`: restores snake, direction, food, score, pause and
game-over flags, and marks the game started; the wall mode is kept. -/
def resetGameB (s : StateB) : StateB :=
  { s with snake := INITIAL_SNAKE, direction := INITIAL_DIRECTION,
           food := ⟨15, 15⟩, gameOver := false, score := 0,
           isPaused := false, gameStarted := true }

/-- Variant B `toggleWallMode`: only toggles while the game has not started or
is over; otherwise it does nothing. -/
def toggleWallMode (s : StateB) : StateB :=
  if s.gameStarted = false ∨ s.gameOver = true then
    { s with wallMode := if s.wallMode = WallMode.wall then WallMode.passthrough
                         else WallMode.wall }
  else s

/-! ## Helper lemmas -/

/-- A cell returned by the rejection sampler is never one of the excluded
cells. -/
theorem randomFood_not_mem (excludeCells : List Cell) :
    ∀ (ds : List Cell) (f : Cell),
      randomFood excludeCells ds = some f → cellMem f excludeCells = false := by
  intro ds
  induction ds with
  | nil => intro f h; simp [randomFood] at h
  | cons d rest ih =>
      intro f h
      unfold randomFood at h
      by_cases hc : cellMem d excludeCells = true
      · rw [if_pos hc] at h
        exact ih f h
      · rw [if_neg hc] at h
        injection h with h
        subst h
        cases hfc : cellMem d excludeCells
        · rfl
        · exact absurd hfc hc

/-! ## Claim theorems -/

/-- C3: on a tick taken while the game is running, if the candidate head
coincides with any cell of the current snake — including the tail cell that
would be popped this very tick, since the self-collision check runs before the
pop — the tick ends the game and returns the state with snake, food and score
unchanged. Part 1 is variant A (`tickA`); part 2 is variant B (`moveSnakeB`),
whose candidate head is the wrapped head in pass-through mode. -/
theorem c3_self_collision :
    (∀ (s : StateA) (hd : Cell) (tl draws : List Cell),
      s.running = true → s.gameOver = false → s.snake = hd :: tl →
      cellMem (rawHead hd s.direction) s.snake = true →
      tickA s draws = some { s with gameOver := true, running := false }) ∧
    (∀ (s : StateB) (hd : Cell) (tl draws : List Cell),
      s.gameOver = false → s.isPaused = false → s.gameStarted = true →
      s.snake = hd :: tl →
      cellMem (candHeadB s hd) s.snake = true →
      moveSnakeB s draws = some { s with gameOver := true }) := by
  constructor
  · intro s hd tl draws hrun hgo hsnake hself
    rw [hsnake] at hself
    unfold tickA
    rw [hrun, hgo, hsnake]
    simp only [Bool.true_eq_false, Bool.false_eq_true, or_self, if_false]
    split
    · rfl
    · rfl
  · intro s hd tl draws hgo hpause hstart hsnake hself
    rw [hsnake] at hself
    unfold moveSnakeB
    rw [hgo, hpause, hstart, hsnake]
    simp only [Bool.false_eq_true, Bool.true_eq_false, or_self, if_false]
    split
    · rfl
    · rfl

/-- Witness for C3: variant A, a 2x2 looped snake whose head moves onto its own
tail cell; variant B, a length-2 snake whose head moves onto its tail cell. -/
theorem c3_self_collision_witness :
    (cellMem (rawHead ⟨0, 0⟩ ⟨0, 1⟩) [⟨0, 0⟩, ⟨1, 0⟩, ⟨1, 1⟩, ⟨0, 1⟩] = true ∧
      tickA ⟨[⟨0, 0⟩, ⟨1, 0⟩, ⟨1, 1⟩, ⟨0, 1⟩], ⟨0, 1⟩, ⟨5, 5⟩, true, 150, 0, false⟩ [] =
        some ⟨[⟨0, 0⟩, ⟨1, 0⟩, ⟨1, 1⟩, ⟨0, 1⟩], ⟨0, 1⟩, ⟨5, 5⟩, false, 150, 0, true⟩) ∧
    (cellMem
        (candHeadB ⟨[⟨10, 10⟩, ⟨11, 10⟩], ⟨1, 0⟩, ⟨15, 15⟩, false, 0, false, true,
          WallMode.wall⟩ ⟨10, 10⟩) [⟨10, 10⟩, ⟨11, 10⟩] = true ∧
      moveSnakeB ⟨[⟨10, 10⟩, ⟨11, 10⟩], ⟨1, 0⟩, ⟨15, 15⟩, false, 0, false, true,
          WallMode.wall⟩ [] =
        some ⟨[⟨10, 10⟩, ⟨11, 10⟩], ⟨1, 0⟩, ⟨15, 15⟩, true, 0, false, true, WallMode.wall⟩) :=
  ⟨⟨by decide, c3_self_collision.1 _ ⟨0, 0⟩ [⟨1, 0⟩, ⟨1, 1⟩, ⟨0, 1⟩] [] rfl rfl rfl (by decide)⟩,
   ⟨by decide, c3_self_collision.2 _ ⟨10, 10⟩ [⟨11, 10⟩] [] rfl rfl rfl rfl (by decide)⟩⟩

/-- C4: under the lethal wall policy, a tick taken while the game is running
whose candidate head lies outside [0,N) on either axis ends the game and leaves
snake, food and score unchanged; and once the game is over every further tick
returns the state completely unchanged. Parts 1–2 are variant A (which only has
lethal walls), parts 3–4 are variant B in wall mode. -/
theorem c4_lethal_wall :
    (∀ (s : StateA) (hd : Cell) (tl draws : List Cell),
      s.running = true → s.gameOver = false → s.snake = hd :: tl →
      ((rawHead hd s.direction).x < 0 ∨ (rawHead hd s.direction).x ≥ BOARD_SIZE ∨
        (rawHead hd s.direction).y < 0 ∨ (rawHead hd s.direction).y ≥ BOARD_SIZE) →
      tickA s draws = some { s with gameOver := true, running := false }) ∧
    (∀ (s : StateA) (dss : List (List Cell)),
      s.gameOver = true → ticksA s dss = some s) ∧
    (∀ (s : StateB) (hd : Cell) (tl draws : List Cell),
      s.gameOver = false → s.isPaused = false → s.gameStarted = true →
      s.wallMode = WallMode.wall → s.snake = hd :: tl →
      ((rawHead hd s.direction).x < 0 ∨ (rawHead hd s.direction).x ≥ GRID_SIZE ∨
        (rawHead hd s.direction).y < 0 ∨ (rawHead hd s.direction).y ≥ GRID_SIZE) →
      moveSnakeB s draws = some { s with gameOver := true }) ∧
    (∀ (s : StateB) (dss : List (List Cell)),
      s.gameOver = true → ticksB s dss = some s) := by
  refine ⟨?_, ?_, ?_, ?_⟩
  · intro s hd tl draws hrun hgo hsnake hoob
    unfold tickA
    rw [hrun, hgo, hsnake]
    simp only [Bool.true_eq_false, Bool.false_eq_true, or_self, if_false]
    rw [if_pos hoob]
  · intro s dss hgo
    induction dss with
    | nil => rfl
    | cons ds rest ih =>
        have h1 : tickA s ds = some s := by
          unfold tickA
          rw [hgo]
          simp
        unfold ticksA
        rw [h1]
        exact ih
  · intro s hd tl draws hgo hpause hstart hmode hsnake hoob
    unfold moveSnakeB
    rw [hgo, hpause, hstart, hsnake]
    simp only [Bool.false_eq_true, Bool.true_eq_false, or_self, if_false]
    rw [if_pos ⟨hmode, hoob⟩]
  · intro s dss hgo
    induction dss with
    | nil => rfl
    | cons ds rest ih =>
        have h1 : moveSnakeB s ds = some s := by
          unfold moveSnakeB
          rw [hgo]
          simp
        unfold ticksB
        rw [h1]
        exact ih

/-- Witness for C4: variant A, head at x = 19 moving right hits the wall; the
dead state survives two further ticks unchanged. Variant B in wall mode, head
at x = 0 moving left. -/
theorem c4_lethal_wall_witness :
    (tickA ⟨[⟨19, 10⟩], ⟨1, 0⟩, ⟨0, 0⟩, true, 150, 0, false⟩ [] =
        some ⟨[⟨19, 10⟩], ⟨1, 0⟩, ⟨0, 0⟩, false, 150, 0, true⟩) ∧
    (ticksA ⟨[⟨19, 10⟩], ⟨1, 0⟩, ⟨0, 0⟩, false, 150, 0, true⟩ [[], [⟨3, 3⟩]] =
        some ⟨[⟨19, 10⟩], ⟨1, 0⟩, ⟨0, 0⟩, false, 150, 0, true⟩) ∧
    (moveSnakeB ⟨[⟨0, 10⟩], ⟨-1, 0⟩, ⟨15, 15⟩, false, 0, false, true, WallMode.wall⟩ [] =
        some ⟨[⟨0, 10⟩], ⟨-1, 0⟩, ⟨15, 15⟩, true, 0, false, true, WallMode.wall⟩) ∧
    (ticksB ⟨[⟨0, 10⟩], ⟨-1, 0⟩, ⟨15, 15⟩, true, 0, false, true, WallMode.wall⟩ [[], [⟨3, 3⟩]] =
        some ⟨[⟨0, 10⟩], ⟨-1, 0⟩, ⟨15, 15⟩, true, 0, false, true, WallMode.wall⟩) :=
  ⟨c4_lethal_wall.1 _ ⟨19, 10⟩ [] [] rfl rfl rfl (by decide),
   c4_lethal_wall.2.1 _ [[], [⟨3, 3⟩]] rfl,
   c4_lethal_wall.2.2.1 _ ⟨0, 10⟩ [] [] rfl rfl rfl rfl rfl (by decide),
   c4_lethal_wall.2.2.2 _ [[], [⟨3, 3⟩]] rfl⟩

/-- C5: a running tick with no wall hit, no self-collision and candidate head
distinct from the food prepends the candidate head and removes the last (tail)
cell: the new snake is the candidate head followed by the old snake without its
last cell, the length is unchanged, and direction, food, score, speed and
status are all unchanged (shown by the record equality). Part 1 is variant A;
part 2 is variant B in either wall mode (in wall mode the candidate head is
additionally assumed in bounds, otherwise the wall branch would fire). -/
theorem c5_plain_move :
    (∀ (s : StateA) (hd : Cell) (tl draws : List Cell),
      s.running = true → s.gameOver = false → s.snake = hd :: tl →
      ¬((rawHead hd s.direction).x < 0 ∨ (rawHead hd s.direction).x ≥ BOARD_SIZE ∨
        (rawHead hd s.direction).y < 0 ∨ (rawHead hd s.direction).y ≥ BOARD_SIZE) →
      cellMem (rawHead hd s.direction) s.snake = false →
      ((rawHead hd s.direction).x == s.food.x && (rawHead hd s.direction).y == s.food.y)
          = false →
      tickA s draws = some { s with snake := rawHead hd s.direction :: s.snake.dropLast } ∧
      (rawHead hd s.direction :: s.snake.dropLast).length = s.snake.length) ∧
    (∀ (s : StateB) (hd : Cell) (tl draws : List Cell),
      s.gameOver = false → s.isPaused = false → s.gameStarted = true →
      s.snake = hd :: tl →
      (s.wallMode = WallMode.wall →
        ¬((rawHead hd s.direction).x < 0 ∨ (rawHead hd s.direction).x ≥ GRID_SIZE ∨
          (rawHead hd s.direction).y < 0 ∨ (rawHead hd s.direction).y ≥ GRID_SIZE)) →
      cellMem (candHeadB s hd) s.snake = false →
      ((candHeadB s hd).x == s.food.x && (candHeadB s hd).y == s.food.y) = false →
      moveSnakeB s draws = some { s with snake := candHeadB s hd :: s.snake.dropLast } ∧
      (candHeadB s hd :: s.snake.dropLast).length = s.snake.length) := by
  constructor
  · intro s hd tl draws hrun hgo hsnake hoob hself hfood
    rw [hsnake] at hself
    constructor
    · unfold tickA
      rw [hrun, hgo, hsnake]
      simp only [Bool.true_eq_false, Bool.false_eq_true, or_self, if_false]
      rw [if_neg hoob, if_neg (by simp [hself]), if_neg (by simp [hfood])]
      rfl
    · rw [hsnake]
      simp [List.length_dropLast]
  · intro s hd tl draws hgo hpause hstart hsnake hwall hself hfood
    rw [hsnake] at hself
    constructor
    · unfold moveSnakeB
      rw [hgo, hpause, hstart, hsnake]
      simp only [Bool.false_eq_true, Bool.true_eq_false, or_self, if_false]
      rw [if_neg (fun hc => hwall hc.1 hc.2)]
      rw [if_neg (by simp [hsnake, hself]), if_neg (by simp [hsnake, hfood])]
      rfl
    · rw [hsnake]
      simp [List.length_dropLast]

/-- Witness for C5: variant A from the start position (head (9,10) moving
right, food elsewhere); variant B in wall mode from its initial position. -/
theorem c5_plain_move_witness :
    (tickA ⟨START_SNAKE, ⟨1, 0⟩, ⟨0, 0⟩, true, 150, 0, false⟩ [] =
        some ⟨[⟨10, 10⟩, ⟨9, 10⟩, ⟨8, 10⟩], ⟨1, 0⟩, ⟨0, 0⟩, true, 150, 0, false⟩ ∧
      ([⟨10, 10⟩, ⟨9, 10⟩, ⟨8, 10⟩] : List Cell).length = START_SNAKE.length) ∧
    (moveSnakeB ⟨[⟨10, 10⟩], ⟨1, 0⟩, ⟨15, 15⟩, false, 0, false, true, WallMode.wall⟩ [] =
        some ⟨[⟨11, 10⟩], ⟨1, 0⟩, ⟨15, 15⟩, false, 0, false, true, WallMode.wall⟩ ∧
      ([⟨11, 10⟩] : List Cell).length = ([⟨10, 10⟩] : List Cell).length) :=
  ⟨c5_plain_move.1 _ ⟨9, 10⟩ [⟨8, 10⟩, ⟨7, 10⟩] [] rfl rfl rfl (by decide) (by decide)
      (by decide),
   c5_plain_move.2 _ ⟨10, 10⟩ [] [] rfl rfl rfl rfl (fun _ => by decide) (by decide)
      (by decide)⟩

/-- C1 counterexample (variant B): snake [(0,0)] moving right eats the food at
(1,0). `generateFood`'s closure rejects draws only against the pre-move snake
[(0,0)], so the draw (1,0) is accepted and the new food cell lies on the new
(grown) snake — on its head. -/
theorem c1_counterexample :
    moveSnakeB ⟨[⟨0, 0⟩], ⟨1, 0⟩, ⟨1, 0⟩, false, 0, false, true, WallMode.wall⟩ [⟨1, 0⟩] =
      some ⟨[⟨1, 0⟩, ⟨0, 0⟩], ⟨1, 0⟩, ⟨1, 0⟩, false, 10, false, true, WallMode.wall⟩ ∧
    cellMem (⟨1, 0⟩ : Cell) [⟨1, 0⟩, ⟨0, 0⟩] = true := by
  decide

/-- C1 (amended): on a running tick whose candidate head is in bounds, off the
snake and equal to the food, the snake grows by prepending the candidate head
with no tail removed (length increases by exactly 1) and the score increases by
the fixed per-food reward (1 in variant A, 10 in variant B). In variant A the
new food avoids the whole new (grown) snake; in variant B `generateFood`'s
closure captures the pre-move snake, so the new food is only guaranteed to
avoid the cells of the previous snake and may coincide with the new head. -/
theorem c1_food_growth :
    (∀ (s : StateA) (hd : Cell) (tl draws : List Cell) (s' : StateA),
      s.running = true → s.gameOver = false → s.snake = hd :: tl →
      ¬((rawHead hd s.direction).x < 0 ∨ (rawHead hd s.direction).x ≥ BOARD_SIZE ∨
        (rawHead hd s.direction).y < 0 ∨ (rawHead hd s.direction).y ≥ BOARD_SIZE) →
      cellMem (rawHead hd s.direction) s.snake = false →
      ((rawHead hd s.direction).x == s.food.x && (rawHead hd s.direction).y == s.food.y)
          = true →
      tickA s draws = some s' →
      s'.snake = rawHead hd s.direction :: s.snake ∧
      s'.snake.length = s.snake.length + 1 ∧
      s'.score = s.score + 1 ∧
      cellMem s'.food s'.snake = false) ∧
    (∀ (s : StateB) (hd : Cell) (tl draws : List Cell) (s' : StateB),
      s.gameOver = false → s.isPaused = false → s.gameStarted = true →
      s.snake = hd :: tl →
      (s.wallMode = WallMode.wall →
        ¬((rawHead hd s.direction).x < 0 ∨ (rawHead hd s.direction).x ≥ GRID_SIZE ∨
          (rawHead hd s.direction).y < 0 ∨ (rawHead hd s.direction).y ≥ GRID_SIZE)) →
      cellMem (candHeadB s hd) s.snake = false →
      ((candHeadB s hd).x == s.food.x && (candHeadB s hd).y == s.food.y) = true →
      moveSnakeB s draws = some s' →
      s'.snake = candHeadB s hd :: s.snake ∧
      s'.snake.length = s.snake.length + 1 ∧
      s'.score = s.score + 10 ∧
      cellMem s'.food s.snake = false) := by
  constructor
  · intro s hd tl draws s' hrun hgo hsnake hoob hself hfood htick
    rw [hsnake] at hself ⊢
    unfold tickA at htick
    rw [hrun, hgo, hsnake] at htick
    simp only [Bool.true_eq_false, Bool.false_eq_true, or_self, if_false] at htick
    rw [if_neg hoob, if_neg (by simp [hself]), if_pos hfood] at htick
    cases hrf : randomFood (rawHead hd s.direction :: hd :: tl) draws with
    | none => rw [hrf] at htick; cases htick
    | some f =>
        rw [hrf] at htick
        injection htick with htick
        subst htick
        refine ⟨rfl, by simp, rfl, ?_⟩
        exact randomFood_not_mem _ draws f hrf
  · intro s hd tl draws s' hgo hpause hstart hsnake hwall hself hfood htick
    rw [hsnake] at hself ⊢
    unfold moveSnakeB at htick
    rw [hgo, hpause, hstart, hsnake] at htick
    simp only [Bool.false_eq_true, Bool.true_eq_false, or_self, if_false] at htick
    rw [if_neg (fun hc => hwall hc.1 hc.2)] at htick
    rw [if_neg (by simp [hsnake, hself]), if_pos (by simp [hsnake, hfood])] at htick
    cases hrf : randomFood (hd :: tl) draws with
    | none => rw [hrf] at htick; cases htick
    | some f =>
        rw [hrf] at htick
        injection htick with htick
        subst htick
        refine ⟨rfl, by simp, rfl, ?_⟩
        exact randomFood_not_mem _ draws f hrf

/-- Witness for C1: variant A eats at (10,10), the draw (9,10) is rejected as a
cell of the grown snake and (0,0) is accepted; variant B in pass-through mode
eats at (11,10) and the draw (5,5) is accepted. -/
theorem c1_food_growth_witness :
    (([⟨10, 10⟩, ⟨9, 10⟩, ⟨8, 10⟩, ⟨7, 10⟩] : List Cell) = ⟨10, 10⟩ :: START_SNAKE ∧
      ([⟨10, 10⟩, ⟨9, 10⟩, ⟨8, 10⟩, ⟨7, 10⟩] : List Cell).length = START_SNAKE.length + 1 ∧
      (1 : Nat) = 0 + 1 ∧
      cellMem (⟨0, 0⟩ : Cell) [⟨10, 10⟩, ⟨9, 10⟩, ⟨8, 10⟩, ⟨7, 10⟩] = false) ∧
    (([⟨11, 10⟩, ⟨10, 10⟩] : List Cell) = ⟨11, 10⟩ :: [⟨10, 10⟩] ∧
      ([⟨11, 10⟩, ⟨10, 10⟩] : List Cell).length = ([⟨10, 10⟩] : List Cell).length + 1 ∧
      (10 : Nat) = 0 + 10 ∧
      cellMem (⟨5, 5⟩ : Cell) [⟨10, 10⟩] = false) :=
  ⟨c1_food_growth.1 ⟨START_SNAKE, ⟨1, 0⟩, ⟨10, 10⟩, true, 150, 0, false⟩ ⟨9, 10⟩
      [⟨8, 10⟩, ⟨7, 10⟩] [⟨9, 10⟩, ⟨0, 0⟩]
      ⟨[⟨10, 10⟩, ⟨9, 10⟩, ⟨8, 10⟩, ⟨7, 10⟩], ⟨1, 0⟩, ⟨0, 0⟩, true, 146, 1, false⟩
      rfl rfl rfl (by decide) (by decide) (by decide) (by decide),
   c1_food_growth.2 ⟨[⟨10, 10⟩], ⟨1, 0⟩, ⟨11, 10⟩, false, 0, false, true,
        WallMode.passthrough⟩ ⟨10, 10⟩ [] [⟨5, 5⟩]
      ⟨[⟨11, 10⟩, ⟨10, 10⟩], ⟨1, 0⟩, ⟨5, 5⟩, false, 10, false, true, WallMode.passthrough⟩
      rfl rfl rfl rfl (fun h => by cases h) (by decide) (by decide) (by decide)⟩

/-- C6: in pass-through mode, each axis of the candidate head is wrapped
independently: -1 becomes N-1, N becomes 0, and on the whole range [-1, N]
reachable from an in-grid head with a unit heading the wrap agrees with
modulo N. Moreover a running pass-through tick whose wrapped candidate head
misses the snake never ends the game — the boundary crossing itself cannot set
GameOver — and the new head of the snake is exactly the wrapped candidate. -/
theorem c6_wraparound :
    (wrapCoord (-1) = GRID_SIZE - 1 ∧ wrapCoord GRID_SIZE = 0) ∧
    (∀ c : Int, -1 ≤ c → c ≤ GRID_SIZE → wrapCoord c = c % GRID_SIZE) ∧
    (∀ (s : StateB) (hd : Cell) (tl draws : List Cell) (s' : StateB),
      s.gameOver = false → s.isPaused = false → s.gameStarted = true →
      s.wallMode = WallMode.passthrough → s.snake = hd :: tl →
      cellMem (candHeadB s hd) s.snake = false →
      moveSnakeB s draws = some s' →
      s'.gameOver = false ∧ s'.snake.head? = some (candHeadB s hd) ∧
      candHeadB s hd =
        ⟨wrapCoord (rawHead hd s.direction).x, wrapCoord (rawHead hd s.direction).y⟩) := by
  refine ⟨by decide, ?_, ?_⟩
  · intro c h1 h2
    unfold GRID_SIZE at h2
    simp only [wrapCoord, GRID_SIZE]
    split_ifs <;> omega
  · intro s hd tl draws s' hgo hpause hstart hmode hsnake hself htick
    rw [hsnake] at hself
    unfold moveSnakeB at htick
    rw [hgo, hpause, hstart, hsnake] at htick
    simp only [Bool.false_eq_true, Bool.true_eq_false, or_self, if_false] at htick
    rw [if_neg (by simp [hmode])] at htick
    rw [if_neg (by simp [hself])] at htick
    have hcand : candHeadB s hd =
        ⟨wrapCoord (rawHead hd s.direction).x, wrapCoord (rawHead hd s.direction).y⟩ := by
      unfold candHeadB
      rw [hmode]
      simp
    split at htick
    · cases hrf : randomFood (hd :: tl) draws with
      | none => rw [hrf] at htick; cases htick
      | some f =>
          rw [hrf] at htick
          injection htick with htick
          subst htick
          exact ⟨rfl, rfl, hcand⟩
    · injection htick with htick
      subst htick
      exact ⟨rfl, rfl, hcand⟩

/-- Witness for C6: wrapping -1 agrees with -1 % 20 = 19, and a pass-through
tick from head (0,5) moving left lands on (19,5) without ending the game. -/
theorem c6_wraparound_witness :
    ((-1 : Int) ≤ -1 ∧ (-1 : Int) ≤ GRID_SIZE ∧ wrapCoord (-1) = -1 % GRID_SIZE) ∧
    ((⟨[⟨19, 5⟩], ⟨-1, 0⟩, ⟨3, 3⟩, false, 0, false, true, WallMode.passthrough⟩ : StateB).gameOver
        = false ∧
      (⟨[⟨19, 5⟩], ⟨-1, 0⟩, ⟨3, 3⟩, false, 0, false, true,
          WallMode.passthrough⟩ : StateB).snake.head? =
        some (candHeadB ⟨[⟨0, 5⟩], ⟨-1, 0⟩, ⟨3, 3⟩, false, 0, false, true,
          WallMode.passthrough⟩ ⟨0, 5⟩) ∧
      candHeadB ⟨[⟨0, 5⟩], ⟨-1, 0⟩, ⟨3, 3⟩, false, 0, false, true,
          WallMode.passthrough⟩ ⟨0, 5⟩ =
        ⟨wrapCoord (rawHead ⟨0, 5⟩ ⟨-1, 0⟩).x, wrapCoord (rawHead ⟨0, 5⟩ ⟨-1, 0⟩).y⟩) :=
  ⟨⟨by decide, by decide, c6_wraparound.2.1 (-1) (by decide) (by decide)⟩,
   c6_wraparound.2.2 ⟨[⟨0, 5⟩], ⟨-1, 0⟩, ⟨3, 3⟩, false, 0, false, true, WallMode.passthrough⟩
      ⟨0, 5⟩ [] []
      ⟨[⟨19, 5⟩], ⟨-1, 0⟩, ⟨3, 3⟩, false, 0, false, true, WallMode.passthrough⟩
      rfl rfl rfl rfl rfl (by decide) (by decide)⟩

/-- C8: `toggleWallMode` is a no-op whenever the game has started and is not
over (Running or Paused); when the game has not started or is over it flips the
wall mode and changes nothing else (shown by the record equality). -/
theorem c8_toggle_wall :
    (∀ s : StateB, s.gameStarted = true → s.gameOver = false → toggleWallMode s = s) ∧
    (∀ s : StateB, s.gameStarted = false ∨ s.gameOver = true →
      toggleWallMode s =
        { s with wallMode := if s.wallMode = WallMode.wall then WallMode.passthrough
                             else WallMode.wall } ∧
      (toggleWallMode s).wallMode ≠ s.wallMode) := by
  constructor
  · intro s hstart hgo
    unfold toggleWallMode
    rw [hstart, hgo]
    simp
  · intro s h
    unfold toggleWallMode
    rw [if_pos h]
    refine ⟨rfl, ?_⟩
    cases hw : s.wallMode <;> simp [hw]

/-- Witness for C8: a started, live game ignores the toggle; a not-started game
flips wall mode to pass-through and touches nothing else. -/
theorem c8_toggle_wall_witness :
    (toggleWallMode ⟨[⟨10, 10⟩], ⟨1, 0⟩, ⟨15, 15⟩, false, 0, false, true, WallMode.wall⟩ =
        ⟨[⟨10, 10⟩], ⟨1, 0⟩, ⟨15, 15⟩, false, 0, false, true, WallMode.wall⟩) ∧
    (toggleWallMode ⟨[⟨10, 10⟩], ⟨1, 0⟩, ⟨15, 15⟩, false, 0, false, false, WallMode.wall⟩ =
        ⟨[⟨10, 10⟩], ⟨1, 0⟩, ⟨15, 15⟩, false, 0, false, false, WallMode.passthrough⟩ ∧
      (toggleWallMode ⟨[⟨10, 10⟩], ⟨1, 0⟩, ⟨15, 15⟩, false, 0, false, false,
          WallMode.wall⟩).wallMode ≠ WallMode.wall) :=
  ⟨c8_toggle_wall.1 _ rfl rfl, c8_toggle_wall.2 _ (Or.inl rfl)⟩

/-- C9: `start` (variant A), the Reset button (variant A) and `resetGame`
(variant B) always restore the documented initial snake, heading, score and
speed regardless of the prior state, set the documented post-reset status
(Running after `start`, stopped after Reset, started/unpaused/not-over after
`resetGame`), and place the food off the initial snake. -/
theorem c9_reset :
    (∀ (draws : List Cell) (s' : StateA), startA draws = some s' →
      s'.snake = START_SNAKE ∧ s'.direction = START_DIRECTION ∧ s'.score = 0 ∧
      s'.speed = INITIAL_SPEED ∧ s'.running = true ∧ s'.gameOver = false ∧
      cellMem s'.food s'.snake = false) ∧
    (∀ (draws : List Cell) (s' : StateA), resetBtnA draws = some s' →
      s'.snake = START_SNAKE ∧ s'.direction = START_DIRECTION ∧ s'.score = 0 ∧
      s'.speed = INITIAL_SPEED ∧ s'.running = false ∧ s'.gameOver = false ∧
      cellMem s'.food s'.snake = false) ∧
    (∀ s : StateB,
      resetGameB s =
        { s with snake := INITIAL_SNAKE, direction := INITIAL_DIRECTION, food := ⟨15, 15⟩,
                 gameOver := false, score := 0, isPaused := false, gameStarted := true } ∧
      cellMem (⟨15, 15⟩ : Cell) INITIAL_SNAKE = false) := by
  refine ⟨?_, ?_, ?_⟩
  · intro draws s' h
    unfold startA at h
    cases hrf : randomFood START_SNAKE draws with
    | none => rw [hrf] at h; cases h
    | some f =>
        rw [hrf] at h
        injection h with h
        subst h
        exact ⟨rfl, rfl, rfl, rfl, rfl, rfl, randomFood_not_mem _ draws f hrf⟩
  · intro draws s' h
    unfold resetBtnA at h
    cases hrf : randomFood START_SNAKE draws with
    | none => rw [hrf] at h; cases h
    | some f =>
        rw [hrf] at h
        injection h with h
        subst h
        exact ⟨rfl, rfl, rfl, rfl, rfl, rfl, randomFood_not_mem _ draws f hrf⟩
  · intro s
    exact ⟨rfl, by decide⟩

/-- Witness for C9: the draw (0,0) is off the initial snake, so `start` and the
Reset button succeed with it; `resetGame` is applied to a scrambled state. -/
theorem c9_reset_witness :
    (START_SNAKE = START_SNAKE ∧ START_DIRECTION = START_DIRECTION ∧ (0 : Nat) = 0 ∧
      INITIAL_SPEED = INITIAL_SPEED ∧ (true : Bool) = true ∧ (false : Bool) = false ∧
      cellMem (⟨0, 0⟩ : Cell) START_SNAKE = false) ∧
    (START_SNAKE = START_SNAKE ∧ START_DIRECTION = START_DIRECTION ∧ (0 : Nat) = 0 ∧
      INITIAL_SPEED = INITIAL_SPEED ∧ (false : Bool) = false ∧ (false : Bool) = false ∧
      cellMem (⟨0, 0⟩ : Cell) START_SNAKE = false) ∧
    (resetGameB ⟨[⟨3, 4⟩, ⟨3, 5⟩], ⟨0, -1⟩, ⟨7, 7⟩, true, 90, true, true, WallMode.passthrough⟩ =
        ⟨INITIAL_SNAKE, INITIAL_DIRECTION, ⟨15, 15⟩, false, 0, false, true,
          WallMode.passthrough⟩ ∧
      cellMem (⟨15, 15⟩ : Cell) INITIAL_SNAKE = false) :=
  ⟨c9_reset.1 [⟨0, 0⟩] ⟨START_SNAKE, START_DIRECTION, ⟨0, 0⟩, true, INITIAL_SPEED, 0, false⟩
      (by decide),
   c9_reset.2.1 [⟨0, 0⟩] ⟨START_SNAKE, START_DIRECTION, ⟨0, 0⟩, false, INITIAL_SPEED, 0, false⟩
      (by decide),
   c9_reset.2.2 ⟨[⟨3, 4⟩, ⟨3, 5⟩], ⟨0, -1⟩, ⟨7, 7⟩, true, 90, true, true, WallMode.passthrough⟩⟩

/-- C7 counterexample (variant B): with the game not yet started and the
initial heading (1,0), ArrowLeft maps to (-1,0), the exact negation of the
current heading (both component sums are zero). The heading is indeed left
unchanged, but the key press still flips `gameStarted` from false to true, so
the game state does not stay unchanged. -/
theorem c7_counterexample :
    keyDirB "ArrowLeft" = some ⟨-1, 0⟩ ∧
    (1 : Int) + (-1) = 0 ∧ (0 : Int) + 0 = 0 ∧
    handleKeyB "ArrowLeft"
        ⟨INITIAL_SNAKE, ⟨1, 0⟩, ⟨15, 15⟩, false, 0, false, false, WallMode.wall⟩ =
      ⟨INITIAL_SNAKE, ⟨1, 0⟩, ⟨15, 15⟩, false, 0, false, true, WallMode.wall⟩ := by
  decide

/-- C7 (amended): a key event whose mapped heading is the exact negation of the
current heading (component sums zero on both axes) leaves the heading
unchanged; in variant A it leaves the whole state unchanged, and in variant B
it leaves the whole state unchanged except that, when the game has not started,
any arrow key — this one included — flips `gameStarted` to true. -/
theorem c7_reversal_rejected :
    (∀ (s : StateA) (k : String) (d : Cell), keyDirA k = some d →
      s.direction.x + d.x = 0 → s.direction.y + d.y = 0 → handleKeyA k s = s) ∧
    (∀ (s : StateB) (k : String) (d : Cell), keyDirB k = some d →
      s.direction.x + d.x = 0 → s.direction.y + d.y = 0 →
      (handleKeyB k s).direction = s.direction ∧
      handleKeyB k s = (if s.gameStarted = true then s
                        else { s with gameStarted := true })) := by
  constructor
  · intro s k d hk hx hy
    unfold handleKeyA
    rw [hk]
    exact if_pos ⟨hx, hy⟩
  · intro s k d hk hx hy
    unfold keyDirB at hk
    split_ifs at hk with h1 h2 h3 h4
    · subst h1
      injection hk with hk
      subst hk
      dsimp at hx hy
      have hdy : s.direction.y = 1 := by omega
      cases hg : s.gameStarted with
      | false =>
          simp [handleKeyB, setDirB, hg, hdy, (by decide : startsWithArrow "ArrowUp" = true)]
      | true =>
          simp [handleKeyB, setDirB, hg, hdy, (by decide : startsWithArrow "ArrowUp" = true)]
          try rw [← hg]
    · subst h2
      injection hk with hk
      subst hk
      dsimp at hx hy
      have hdy : s.direction.y = -1 := by omega
      cases hg : s.gameStarted with
      | false =>
          simp [handleKeyB, setDirB, hg, hdy, (by decide : startsWithArrow "ArrowDown" = true)]
      | true =>
          simp [handleKeyB, setDirB, hg, hdy, (by decide : startsWithArrow "ArrowDown" = true)]
          try rw [← hg]
    · subst h3
      injection hk with hk
      subst hk
      dsimp at hx hy
      have hdx : s.direction.x = 1 := by omega
      cases hg : s.gameStarted with
      | false =>
          simp [handleKeyB, setDirB, hg, hdx, (by decide : startsWithArrow "ArrowLeft" = true)]
      | true =>
          simp [handleKeyB, setDirB, hg, hdx, (by decide : startsWithArrow "ArrowLeft" = true)]
          try rw [← hg]
    · subst h4
      injection hk with hk
      subst hk
      dsimp at hx hy
      have hdx : s.direction.x = -1 := by omega
      cases hg : s.gameStarted with
      | false =>
          simp [handleKeyB, setDirB, hg, hdx, (by decide : startsWithArrow "ArrowRight" = true)]
      | true =>
          simp [handleKeyB, setDirB, hg, hdx, (by decide : startsWithArrow "ArrowRight" = true)]
          try rw [← hg]

/-- Witness for C7: heading (0,1) (down) with ArrowUp mapping to (0,-1), the
exact negation; variant A ignores it completely, and a started variant B game
ignores it completely. -/
theorem c7_reversal_rejected_witness :
    (keyDirA "ArrowUp" = some ⟨0, -1⟩ ∧
      handleKeyA "ArrowUp" ⟨START_SNAKE, ⟨0, 1⟩, ⟨0, 0⟩, true, 150, 0, false⟩ =
        ⟨START_SNAKE, ⟨0, 1⟩, ⟨0, 0⟩, true, 150, 0, false⟩) ∧
    (keyDirB "ArrowUp" = some ⟨0, -1⟩ ∧
      (handleKeyB "ArrowUp" ⟨[⟨10, 10⟩], ⟨0, 1⟩, ⟨15, 15⟩, false, 0, false, true,
          WallMode.wall⟩).direction = ⟨0, 1⟩ ∧
      handleKeyB "ArrowUp" ⟨[⟨10, 10⟩], ⟨0, 1⟩, ⟨15, 15⟩, false, 0, false, true,
          WallMode.wall⟩ =
        ⟨[⟨10, 10⟩], ⟨0, 1⟩, ⟨15, 15⟩, false, 0, false, true, WallMode.wall⟩) :=
  ⟨⟨by decide, c7_reversal_rejected.1 _ "ArrowUp" ⟨0, -1⟩ (by decide) (by decide) (by decide)⟩,
   ⟨by decide, c7_reversal_rejected.2 _ "ArrowUp" ⟨0, -1⟩ (by decide) (by decide) (by decide)⟩⟩

/-- A cell that is not the origin has a nonzero coordinate. -/
theorem cell_ne_zero_coord (d : Cell) (hne : d ≠ ⟨0, 0⟩) : d.x ≠ 0 ∨ d.y ≠ 0 := by
  by_contra hcon
  push_neg at hcon
  refine hne ?_
  calc d = ⟨d.x, d.y⟩ := rfl
    _ = ⟨0, 0⟩ := by rw [hcon.1, hcon.2]

/-- One application of variant B's `setDirection` updater never produces the
exact reverse of the heading it started from. -/
theorem setDirB_no_reverse (k : String) (prev : Cell) (h0 : prev.x ≠ 0 ∨ prev.y ≠ 0) :
    ¬(prev.x + (setDirB k prev).x = 0 ∧ prev.y + (setDirB k prev).y = 0) := by
  intro h
  obtain ⟨h1, h2⟩ := h
  unfold setDirB at h1 h2
  rcases h0 with h0 | h0 <;>
    split_ifs at h1 h2 <;>
      first
        | omega
        | (dsimp at h1 h2; omega)

/-- C2 counterexample (variant A): after `start` (food drawn at (0,0)) the state
is running with heading (1,0); the first tick applies (1,0). Two key events
processed between ticks — ArrowUp then ArrowLeft, each individually accepted by
the reversal filter — leave the heading at (-1,0) with the game still running,
so the next tick applies the exact componentwise negation of the previously
applied heading; that tick then ends the game by the very neck collision the
invariant was meant to prevent. -/
theorem c2_counterexample :
    startA [⟨0, 0⟩] = some ⟨START_SNAKE, ⟨1, 0⟩, ⟨0, 0⟩, true, 150, 0, false⟩ ∧
    runA ⟨START_SNAKE, ⟨1, 0⟩, ⟨0, 0⟩, true, 150, 0, false⟩
        [EventA.tick [], EventA.key "ArrowUp", EventA.key "ArrowLeft"] =
      some ⟨[⟨10, 10⟩, ⟨9, 10⟩, ⟨8, 10⟩], ⟨-1, 0⟩, ⟨0, 0⟩, true, 150, 0, false⟩ ∧
    (1 : Int) + (-1) = 0 ∧ (0 : Int) + (0 : Int) = 0 ∧
    (runA ⟨START_SNAKE, ⟨1, 0⟩, ⟨0, 0⟩, true, 150, 0, false⟩
        [EventA.tick [], EventA.key "ArrowUp", EventA.key "ArrowLeft",
          EventA.tick []]).map StateA.gameOver = some true := by
  decide

/-- C2 (amended): if at most one key event is processed between two consecutive
ticks, the heading applied at the second tick is never the exact componentwise
negation of the nonzero heading applied at the first: a single `handleKey`
(variant A) or `handleKeyPress` (variant B) step from a state with a nonzero
heading cannot produce that heading's exact reverse. With two or more key
events between ticks the invariant fails (see the counterexample). -/
theorem c2_no_reversal_single_key :
    (∀ (s : StateA) (k : String), s.direction ≠ ⟨0, 0⟩ →
      ¬(s.direction.x + (handleKeyA k s).direction.x = 0 ∧
        s.direction.y + (handleKeyA k s).direction.y = 0)) ∧
    (∀ (s : StateB) (k : String), s.direction ≠ ⟨0, 0⟩ →
      ¬(s.direction.x + (handleKeyB k s).direction.x = 0 ∧
        s.direction.y + (handleKeyB k s).direction.y = 0)) := by
  constructor
  · intro s k hne h
    obtain ⟨h1, h2⟩ := h
    rcases cell_ne_zero_coord _ hne with h0 | h0
    all_goals
      cases hkd : keyDirA k with
      | none =>
          have hdir : handleKeyA k s = s := by
            unfold handleKeyA
            rw [hkd]
          rw [hdir] at h1 h2
          omega
      | some nd =>
          by_cases hc : s.direction.x + nd.x = 0 ∧ s.direction.y + nd.y = 0
          · have hdir : handleKeyA k s = s := by
              unfold handleKeyA
              rw [hkd]
              exact if_pos hc
            rw [hdir] at h1 h2
            omega
          · have hdir : handleKeyA k s = { s with direction := nd } := by
              unfold handleKeyA
              rw [hkd]
              exact if_neg hc
            rw [hdir] at h1 h2
            dsimp at h1 h2
            exact hc ⟨h1, h2⟩
  · intro s k hne h
    obtain ⟨h1, h2⟩ := h
    by_cases hsp : k = " "
    · subst hsp
      have hdir : (handleKeyB " " s).direction = s.direction := by
        simp [handleKeyB, (by decide : startsWithArrow " " = false)]
      rw [hdir] at h1 h2
      rcases cell_ne_zero_coord _ hne with h0 | h0 <;> omega
    · have hdir : (handleKeyB k s).direction = setDirB k s.direction := by
        simp only [handleKeyB]
        rw [if_neg hsp]
        split <;> rfl
      rw [hdir] at h1 h2
      exact setDirB_no_reverse k s.direction (cell_ne_zero_coord _ hne) ⟨h1, h2⟩

/-- Witness for C2: from heading (1,0), a single ArrowLeft key event leaves the
heading non-reversed in both variants. -/
theorem c2_no_reversal_single_key_witness :
    ((⟨START_SNAKE, ⟨1, 0⟩, ⟨0, 0⟩, true, 150, 0, false⟩ : StateA).direction ≠ ⟨0, 0⟩ ∧
      ¬((⟨START_SNAKE, ⟨1, 0⟩, ⟨0, 0⟩, true, 150, 0, false⟩ : StateA).direction.x +
          (handleKeyA "ArrowLeft"
            ⟨START_SNAKE, ⟨1, 0⟩, ⟨0, 0⟩, true, 150, 0, false⟩).direction.x = 0 ∧
        (⟨START_SNAKE, ⟨1, 0⟩, ⟨0, 0⟩, true, 150, 0, false⟩ : StateA).direction.y +
          (handleKeyA "ArrowLeft"
            ⟨START_SNAKE, ⟨1, 0⟩, ⟨0, 0⟩, true, 150, 0, false⟩).direction.y = 0)) ∧
    ((⟨[⟨10, 10⟩], ⟨1, 0⟩, ⟨15, 15⟩, false, 0, false, true,
          WallMode.wall⟩ : StateB).direction ≠ ⟨0, 0⟩ ∧
      ¬((⟨[⟨10, 10⟩], ⟨1, 0⟩, ⟨15, 15⟩, false, 0, false, true,
            WallMode.wall⟩ : StateB).direction.x +
          (handleKeyB "ArrowLeft" ⟨[⟨10, 10⟩], ⟨1, 0⟩, ⟨15, 15⟩, false, 0, false, true,
            WallMode.wall⟩).direction.x = 0 ∧
        (⟨[⟨10, 10⟩], ⟨1, 0⟩, ⟨15, 15⟩, false, 0, false, true,
            WallMode.wall⟩ : StateB).direction.y +
          (handleKeyB "ArrowLeft" ⟨[⟨10, 10⟩], ⟨1, 0⟩, ⟨15, 15⟩, false, 0, false, true,
            WallMode.wall⟩).direction.y = 0)) :=
  ⟨⟨by decide, c2_no_reversal_single_key.1
      ⟨START_SNAKE, ⟨1, 0⟩, ⟨0, 0⟩, true, 150, 0, false⟩ "ArrowLeft" (by decide)⟩,
   ⟨by decide, c2_no_reversal_single_key.2
      ⟨[⟨10, 10⟩], ⟨1, 0⟩, ⟨15, 15⟩, false, 0, false, true, WallMode.wall⟩ "ArrowLeft"
      (by decide)⟩⟩

/-- A variant A tick leaves the speed unchanged or applies the eating ramp
`max 40 (speed - 4)`. -/
theorem tickA_speed (s : StateA) (draws : List Cell) (s' : StateA)
    (h : tickA s draws = some s') :
    s'.speed = s.speed ∨ s'.speed = max 40 (s.speed - 4) := by
  unfold tickA at h
  split at h
  · injection h with h
    subst h
    exact Or.inl rfl
  · split at h
    · cases h
    · dsimp only at h
      split at h
      · injection h with h
        subst h
        exact Or.inl rfl
      · split at h
        · injection h with h
          subst h
          exact Or.inl rfl
        · split at h
          · split at h
            · cases h
            · injection h with h
              subst h
              exact Or.inr rfl
          · injection h with h
            subst h
            exact Or.inl rfl

/-- Variant A key handling never touches the speed. -/
theorem handleKeyA_speed (k : String) (s : StateA) : (handleKeyA k s).speed = s.speed := by
  unfold handleKeyA
  split
  · rfl
  · split <;> rfl

/-- Variant A `start` sets the speed to the initial interval. -/
theorem startA_speed (draws : List Cell) (s' : StateA) (h : startA draws = some s') :
    s'.speed = INITIAL_SPEED := by
  unfold startA at h
  cases hrf : randomFood START_SNAKE draws with
  | none => rw [hrf] at h; cases h
  | some f => rw [hrf] at h; injection h with h; subst h; rfl

/-- The variant A Reset button sets the speed to the initial interval. -/
theorem resetBtnA_speed (draws : List Cell) (s' : StateA) (h : resetBtnA draws = some s') :
    s'.speed = INITIAL_SPEED := by
  unfold resetBtnA at h
  cases hrf : randomFood START_SNAKE draws with
  | none => rw [hrf] at h; cases h
  | some f => rw [hrf] at h; injection h with h; subst h; rfl

/-- C10: in variant A the speed interval stays within [40, 1000] in every
reachable state: it starts at 150, eating clamps `speed - 4` below at 40, the
Faster button clamps `speed - 20` below at 40, the Slower button clamps
`speed + 20` above at 1000, and start/reset restore 150. -/
theorem c10_speed_bounds : ∀ s : StateA, ReachA s → 40 ≤ s.speed ∧ s.speed ≤ 1000 := by
  intro s h
  induction h with
  | init draws f hf =>
      exact ⟨by norm_num [initialA, INITIAL_SPEED], by norm_num [initialA, INITIAL_SPEED]⟩
  | step s e s' hs hstep ih =>
      cases e with
      | tick draws =>
          rcases tickA_speed s draws s' hstep with h | h <;> rw [h]
          · exact ih
          · exact ⟨le_max_left _ _, max_le_iff.mpr ⟨by norm_num, by have := ih.2; omega⟩⟩
      | key k =>
          injection hstep with h
          subst h
          rw [handleKeyA_speed]
          exact ih
      | start draws =>
          rw [startA_speed draws s' hstep]
          exact ⟨by norm_num [INITIAL_SPEED], by norm_num [INITIAL_SPEED]⟩
      | reset draws =>
          rw [resetBtnA_speed draws s' hstep]
          exact ⟨by norm_num [INITIAL_SPEED], by norm_num [INITIAL_SPEED]⟩
      | pause =>
          injection hstep with h
          subst h
          exact ih
      | resume =>
          injection hstep with h
          subst h
          unfold resumeA
          split
          · exact ih
          · exact ih
      | faster =>
          injection hstep with h
          subst h
          exact ⟨le_max_left _ _, max_le_iff.mpr ⟨by norm_num, by have := ih.2; omega⟩⟩
      | slower =>
          injection hstep with h
          subst h
          exact ⟨le_min_iff.mpr ⟨by norm_num, by have := ih.1; omega⟩, min_le_left _ _⟩

/-- Witness for C10: the initial state with food at (0,0) is reachable and its
speed 150 lies within [40, 1000]. -/
theorem c10_speed_bounds_witness :
    40 ≤ (initialA ⟨0, 0⟩).speed ∧ (initialA ⟨0, 0⟩).speed ≤ 1000 :=
  c10_speed_bounds (initialA ⟨0, 0⟩) (ReachA.init [⟨0, 0⟩] ⟨0, 0⟩ (by decide))
